import Mathlib

/-!
Shallow embedding of the `error_utils` C++ header (single-header error-handling
library): error-code domains, the `Error` value type, the `Result` alias, the
exception translator `try_catch`, the errno translator `with_errno`, the regex
overload of `make_error`, and the combinator `first_of`.

Strings model `std::string`; an `ErrorCode` models `std::error_code` as a
(category, value) pair.  Exceptions are modelled by the sum type `Fault` whose
constructors are the most-derived dynamic types the catch-chain distinguishes.
-/

namespace error_utils

/-- Error-code categories (`std::error_category` singletons) relevant to the
library: the generic category (`std::errc`), the system category, the
`ExtraError` category, the `ExtraErrorCondition` category, and the future
category (`std::future_errc`). -/
inductive ErrorDomain where
  | generic
  | system
  | extra
  | extraCondition
  | future
  deriving DecidableEq, Repr

/-- A `std::error_code` / `std::error_condition`: an integer value tagged with
its category. -/
structure ErrorCode where
  domain : ErrorDomain
  value : Int
  deriving DecidableEq, Repr

/-- The `ExtraError` scoped enumeration (values 1..20). -/
inductive ExtraError where
  | invalid_argument
  | length_error
  | logic_error
  | value_too_small
  | nonexistent_local_time
  | ambiguous_local_time
  | format_error
  | runtime_error
  | bad_alloc
  | bad_typeid
  | bad_cast
  | bad_optional_access
  | bad_expected_access
  | bad_variant_access
  | bad_weak_ptr
  | bad_function_call
  | bad_exception
  | exception
  | unknown_exception
  | unknown_error
  deriving DecidableEq, Repr

/-- Numeric value of each `ExtraError` enumerator (`invalid_argument = 1`, the
rest consecutive). -/
def ExtraError.toInt : ExtraError → Int
  | .invalid_argument => 1
  | .length_error => 2
  | .logic_error => 3
  | .value_too_small => 4
  | .nonexistent_local_time => 5
  | .ambiguous_local_time => 6
  | .format_error => 7
  | .runtime_error => 8
  | .bad_alloc => 9
  | .bad_typeid => 10
  | .bad_cast => 11
  | .bad_optional_access => 12
  | .bad_expected_access => 13
  | .bad_variant_access => 14
  | .bad_weak_ptr => 15
  | .bad_function_call => 16
  | .bad_exception => 17
  | .exception => 18
  | .unknown_exception => 19
  | .unknown_error => 20

/-- The `ExtraErrorCondition` scoped enumeration (values 1..5). -/
inductive ExtraErrorCondition where
  | logic_error
  | runtime_error
  | resource_error
  | access_error
  | other_error
  deriving DecidableEq, Repr

/-- Numeric value of each `ExtraErrorCondition` enumerator. -/
def ExtraErrorCondition.toInt : ExtraErrorCondition → Int
  | .logic_error => 1
  | .runtime_error => 2
  | .resource_error => 3
  | .access_error => 4
  | .other_error => 5

/-- Models `error_utils::make_error_code(ExtraError)`: the code in the `ExtraError`
category. -/
def make_error_code (e : ExtraError) : ErrorCode :=
  ⟨.extra, e.toInt⟩

/-- Models `error_utils::make_error_condition(ExtraErrorCondition)`: the condition in
the `ExtraErrorCondition` category. -/
def make_error_condition (c : ExtraErrorCondition) : ErrorCode :=
  ⟨.extraCondition, c.toInt⟩

/-- Models `ExtraErrorCategory::message(int)`: message table for the `ExtraError`
category, keyed on the raw integer with a default branch. -/
def extraMessage (v : Int) : String :=
  if v = 1 then "Invalid argument exception"
  else if v = 2 then "Length error exception"
  else if v = 3 then "Logic error exception"
  else if v = 4 then "Value too small (underflow exception)"
  else if v = 5 then "Nonexistent local time exception"
  else if v = 6 then "Ambiguous local time exception"
  else if v = 7 then "Format error exception"
  else if v = 8 then "Runtime error exception"
  else if v = 9 then "Bad allocation exception"
  else if v = 10 then "Bad typeid exception"
  else if v = 11 then "Bad cast exception"
  else if v = 12 then "Bad optional access exception"
  else if v = 13 then "Bad expected access exception"
  else if v = 14 then "Bad variant access exception"
  else if v = 15 then "Bad weak pointer exception"
  else if v = 16 then "Bad function call exception"
  else if v = 17 then "Bad exception"
  else if v = 18 then "Exception caught"
  else if v = 19 then "Unknown exception caught"
  else if v = 20 then "Unknown error"
  else "Unrecognized ExtraError"

/-- Models `ExtraErrorConditionCategory::message(int)`: message table for the
condition category. -/
def conditionMessage (v : Int) : String :=
  if v = 1 then "Logic error"
  else if v = 2 then "Runtime error"
  else if v = 3 then "Resource error"
  else if v = 4 then "Access error"
  else if v = 5 then "Other error"
  else "Unrecognized error condition"

/-- Message table of the platform's generic category (`strerror`-style texts on
the reference platform), restricted to the values this development touches;
other values take the catch-all text. -/
def genericMessage (v : Int) : String :=
  if v = 1 then "Operation not permitted"
  else if v = 5 then "Input/output error"
  else if v = 12 then "Cannot allocate memory"
  else if v = 13 then "Permission denied"
  else if v = 22 then "Invalid argument"
  else if v = 33 then "Numerical argument out of domain"
  else if v = 34 then "Numerical result out of range"
  else if v = 75 then "Value too large for defined data type"
  else if v = 125 then "Operation canceled"
  else "Unknown error"

/-- Message table of the future category (`std::future_errc`), for the codes a
`std::future_error` can embed. -/
def futureMessage (v : Int) : String :=
  if v = 1 then "Future already retrieved"
  else if v = 2 then "Promise already satisfied"
  else if v = 3 then "No associated state"
  else if v = 4 then "Broken promise"
  else "Unknown error"

/-- Dispatch to the owning category's `message(int)`.  The system category
delegates to the generic table (the reference platform renders errno values
identically in both). -/
def codeMessage (k : ErrorCode) : String :=
  match k.domain with
  | .generic => genericMessage k.value
  | .system => genericMessage k.value
  | .extra => extraMessage k.value
  | .extraCondition => conditionMessage k.value
  | .future => futureMessage k.value

/-- Models `ExtraErrorCategory::default_error_condition(int)` distilled to the
condition enumerator: values 1..3 map to `logic_error`, 4..8 to
`runtime_error`, 9..11 to `resource_error`, 12..16 to `access_error`, and
every other value (17..20 and unrecognized integers) to `other_error`. -/
def extraDefaultCondition (v : Int) : ExtraErrorCondition :=
  if v = 1 ∨ v = 2 ∨ v = 3 then .logic_error
  else if v = 4 ∨ v = 5 ∨ v = 6 ∨ v = 7 ∨ v = 8 then .runtime_error
  else if v = 9 ∨ v = 10 ∨ v = 11 then .resource_error
  else if v = 12 ∨ v = 13 ∨ v = 14 ∨ v = 15 ∨ v = 16 then .access_error
  else .other_error

/-- Models `error_category::default_error_condition(int)` per category: the
`ExtraError` category applies its static table; the other categories use the
identity mapping into their own (or the generic) condition space. -/
def defaultErrorCondition (k : ErrorCode) : ErrorCode :=
  match k.domain with
  | .extra => ⟨.extraCondition, (extraDefaultCondition k.value).toInt⟩
  | .generic => ⟨.generic, k.value⟩
  | .system => ⟨.generic, k.value⟩
  | .extraCondition => ⟨.extraCondition, k.value⟩
  | .future => ⟨.future, k.value⟩

/-- Models `operator==(const error_code&, const error_condition&)`: true iff the
code's default condition equals the condition, or the condition's category
directly matches the code's category and value (neither category overrides
`equivalent`). -/
def codeEqCond (k cond : ErrorCode) : Bool :=
  decide (defaultErrorCondition k = cond) ||
    (decide (cond.domain = k.domain) && decide (k.value = cond.value))

/-- Models `error_utils::Error`: a `std::error_code` plus free-text context. -/
structure Error where
  context : String
  code : ErrorCode
  deriving DecidableEq, Repr

/-- Default-constructed `Error`: value 0 in the system category, empty
context. -/
def Error.default : Error := ⟨"", ⟨.system, 0⟩⟩

/-- Models `Error::operator==`: compares the stored `std::error_code` only. -/
def Error.beq (a b : Error) : Bool :=
  decide (a.code = b.code)

/-- Index used to model the platform's ordering of category singletons. -/
def ErrorDomain.index : ErrorDomain → Nat
  | .generic => 0
  | .system => 1
  | .extra => 2
  | .extraCondition => 3
  | .future => 4

/-- Models `operator<=>` on `std::error_code`: category first, then value. -/
def ErrorCode.cmp (a b : ErrorCode) : Ordering :=
  (compare a.domain.index b.domain.index).then (compare a.value b.value)

/-- Models `Error::operator<=>`: delegates to the stored code's ordering. -/
def Error.cmp (a b : Error) : Ordering :=
  ErrorCode.cmp a.code b.code

/-- Models `std::hash<error_utils::Error>`: hashes the stored `std::error_code`; the
code hash is injective in (category, value). -/
def codeHash (k : ErrorCode) : Int :=
  k.domain.index * 4294967296 + k.value

/-- Hash of an `Error` value (delegates to `codeHash` on the stored code). -/
def errorHash (e : Error) : Int :=
  codeHash e.code

/-- Models `Error::operator bool()`: true iff the stored code's value is nonzero. -/
def Error.toBool (e : Error) : Bool :=
  decide (e.code.value ≠ 0)

/-- Models `Error::message()`: the code's message, prefixed by `context ": "` when the
context is non-empty. -/
def Error.message (e : Error) : String :=
  if e.context = "" then codeMessage e.code
  else e.context ++ ": " ++ codeMessage e.code

/-- Models `Error::is` for an `ExtraError` candidate (`convertible_to_error_code`
branch): direct comparison of the stored code with `make_error_code(code)`. -/
def Error.isExtra (e : Error) (c : ExtraError) : Bool :=
  decide (e.code = make_error_code c)

/-- Models `Error::is` for a raw `ErrorCode` candidate. -/
def Error.isCode (e : Error) (k : ErrorCode) : Bool :=
  decide (e.code = k)

/-- Models `Error::is` for an `ExtraErrorCondition` candidate
(`directly_convertible_to_error_condition` branch): compares the stored code
with `make_error_condition(code)` under code-vs-condition equality. -/
def Error.isCond (e : Error) (c : ExtraErrorCondition) : Bool :=
  codeEqCond e.code (make_error_condition c)

/-- Models `Result<T> = std::expected<T, Error>`. -/
abbrev Result (α : Type) : Type := Except Error α

/-- Context of the `Error` carried by a failure (empty string on success). -/
def errContext {α : Type} : Result α → String
  | .error e => e.context
  | .ok _ => ""

/-- Rendered message of the `Error` carried by a failure. -/
def errMessage {α : Type} : Result α → String
  | .error e => e.message
  | .ok _ => ""

/-- Stored code of the `Error` carried by a failure. -/
def errCode {α : Type} : Result α → ErrorCode
  | .error e => e.code
  | .ok _ => ⟨.system, 0⟩

end error_utils

namespace error_utils

/-- The marker byte (0x02) the exception translator appends to a regex fault's
text so the regex `make_error` overload suppresses its generic description. -/
def markerChar : Char := '\x02'

/-- Models `std::string::ends_with("\x02")`: the last character is the marker. -/
def endsWithMarker (s : String) : Bool :=
  decide (s.data.getLast? = some markerChar)

/-- Models `std::string_view::remove_suffix(1)`: drop the final character. -/
def removeMarker (s : String) : String :=
  String.mk s.data.dropLast

/-- Models `std::regex_constants::error_type`: the thirteen enumerated regex fault
identifiers plus unrecognized raw values. -/
inductive RegexErrorType where
  | error_collate
  | error_ctype
  | error_escape
  | error_backref
  | error_brack
  | error_paren
  | error_brace
  | error_badbrace
  | error_range
  | error_space
  | error_badrepeat
  | error_complexity
  | error_stack
  | unrecognized (v : Int)
  deriving DecidableEq, Repr

/-- The `create_unexpected` lambda of the regex `make_error` overload: when the
context ends with the marker byte the descriptive message is dropped and the
marker removed, otherwise the description is appended after `": "` (or used
alone for an empty context). -/
def regexCreate (context : String) (k : ErrorCode) (msg : String) : Error :=
  if endsWithMarker context then ⟨removeMarker context, k⟩
  else ⟨if context = "" then msg else context ++ ": " ++ msg, k⟩

/-- The `Error` produced by
`make_error<T>(std::regex_constants::error_type, context)`: the switch mapping
regex fault identifiers to (code, description) handed to `create_unexpected`. -/
def regexError (c : RegexErrorType) (context : String) : Error :=
  match c with
  | .error_collate =>
      regexCreate context ⟨.generic, 22⟩ "Regex error: invalid collating element name"
  | .error_ctype =>
      regexCreate context ⟨.generic, 22⟩ "Regex error: invalid character class name"
  | .error_escape =>
      regexCreate context ⟨.generic, 22⟩
        "Regex error: invalid escaped character or a trailing escape"
  | .error_backref =>
      regexCreate context ⟨.generic, 22⟩ "Regex error: invalid back reference"
  | .error_brack =>
      regexCreate context ⟨.generic, 22⟩
        "Regex error: mismatched square brackets (\x27[\x27 and \x27]\x27)"
  | .error_paren =>
      regexCreate context ⟨.generic, 22⟩
        "Regex error: mismatched parentheses (\x27(\x27 and \x27)\x27)"
  | .error_brace =>
      regexCreate context ⟨.generic, 22⟩
        "Regex error: mismatched curly braces (\x27\x7b\x27 and \x27\x7d\x27)"
  | .error_badbrace =>
      regexCreate context ⟨.generic, 22⟩
        "Regex error: invalid range in a \x7b\x7d expression"
  | .error_range =>
      regexCreate context ⟨.generic, 22⟩ "Regex error: invalid character range"
  | .error_space =>
      regexCreate context ⟨.generic, 12⟩
        "Regex error: insufficient memory to convert the expression into a finite state machine"
  | .error_badrepeat =>
      regexCreate context ⟨.generic, 22⟩
        "Regex error: \x27*\x27, \x27?\x27, \x27+\x27 or \x27\x7b\x27 was not preceded by a valid regular expression"
  | .error_complexity =>
      regexCreate context ⟨.generic, 34⟩
        "Regex error: the complexity of an attempted match exceeded a predefined level"
  | .error_stack =>
      regexCreate context ⟨.generic, 12⟩
        "Regex error: insufficient memory to perform a match"
  | .unrecognized _ =>
      regexCreate context (make_error_code .unknown_error) "Regex error: unknown error"

/-- Models `make_error<T>(std::regex_constants::error_type, context)`: always a
failure carrying `regexError`. -/
def make_error_regex {α : Type} (c : RegexErrorType) (context : String) : Result α :=
  .error (regexError c context)

/-- The abnormal terminations `try_catch` distinguishes, by most-derived
dynamic type; the C++ catch-chain's most-specific-first ordering is captured by
giving each handled type its own constructor.  `future_error` and
`system_error` carry the fault's own embedded `std::error_code`; `regex_error`
carries its `std::regex_constants::error_type`; `non_standard` is any thrown
value that is not a `std::exception` (e.g. a raw literal). -/
inductive Fault where
  | invalid_argument (what : String)
  | domain_error (what : String)
  | length_error (what : String)
  | out_of_range (what : String)
  | future_error (k : ErrorCode) (what : String)
  | logic_error (what : String)
  | range_error (what : String)
  | overflow_error (what : String)
  | underflow_error (what : String)
  | regex_error (c : RegexErrorType) (what : String)
  | system_error (k : ErrorCode) (what : String)
  | nonexistent_local_time (what : String)
  | ambiguous_local_time (what : String)
  | format_error (what : String)
  | runtime_error (what : String)
  | bad_alloc (what : String)
  | bad_typeid (what : String)
  | bad_cast (what : String)
  | bad_optional_access (what : String)
  | bad_expected_access (what : String)
  | bad_variant_access (what : String)
  | bad_weak_ptr (what : String)
  | bad_function_call (what : String)
  | bad_exception (what : String)
  | std_exception (what : String)
  | non_standard
  deriving DecidableEq, Repr

/-- The `create_error` lambda of `try_catch`: build the failure's `Error` from
a code and a default message, prefixing the caller context when non-empty. -/
def createError (context : String) (k : ErrorCode) (defaultMsg : String) : Error :=
  ⟨if context = "" then defaultMsg else context ++ ": " ++ defaultMsg, k⟩

/-- The catch-chain of `try_catch`, branch by branch.  The regex branch calls
`create_error(e.code(), format("{}\x02", e.what()))`, whose `make_error` call
resolves to the regex overload; the `system_error` branch passes an empty
default message so the text derives from the embedded code. -/
def dispatchFault (context : String) : Fault → Error
  | .invalid_argument w => createError context (make_error_code .invalid_argument) w
  | .domain_error w => createError context ⟨.generic, 33⟩ w
  | .length_error w => createError context (make_error_code .length_error) w
  | .out_of_range w => createError context ⟨.generic, 34⟩ w
  | .future_error k w => createError context k w
  | .logic_error w => createError context (make_error_code .logic_error) w
  | .range_error w => createError context ⟨.generic, 34⟩ w
  | .overflow_error w => createError context ⟨.generic, 75⟩ w
  | .underflow_error w => createError context (make_error_code .value_too_small) w
  | .regex_error c w =>
      regexError c
        (if context = "" then w ++ "\x02" else context ++ ": " ++ (w ++ "\x02"))
  | .system_error k _ => createError context k ""
  | .nonexistent_local_time w =>
      createError context (make_error_code .nonexistent_local_time) w
  | .ambiguous_local_time w =>
      createError context (make_error_code .ambiguous_local_time) w
  | .format_error w => createError context (make_error_code .format_error) w
  | .runtime_error w => createError context (make_error_code .runtime_error) w
  | .bad_alloc w => createError context (make_error_code .bad_alloc) w
  | .bad_typeid w => createError context (make_error_code .bad_typeid) w
  | .bad_cast w => createError context (make_error_code .bad_cast) w
  | .bad_optional_access w => createError context (make_error_code .bad_optional_access) w
  | .bad_expected_access w => createError context (make_error_code .bad_expected_access) w
  | .bad_variant_access w => createError context (make_error_code .bad_variant_access) w
  | .bad_weak_ptr w => createError context (make_error_code .bad_weak_ptr) w
  | .bad_function_call w => createError context (make_error_code .bad_function_call) w
  | .bad_exception w => createError context (make_error_code .bad_exception) w
  | .std_exception w => createError context (make_error_code .exception) w
  | .non_standard => createError context (make_error_code .unknown_exception) "Unknown exception"

/-- Outcome of invoking the wrapped zero-argument operation: normal completion
with a value, or an abnormal termination carrying a fault. -/
inductive FuncOutcome (α : Type) where
  | normal (v : α)
  | raised (f : Fault)

/-- Models `try_catch(func, context)`: return the operation's value on normal
completion, otherwise classify the terminating fault through the catch-chain. -/
def try_catch {α : Type} (o : FuncOutcome α) (context : String) : Result α :=
  match o with
  | .normal v => .ok v
  | .raised f => .error (dispatchFault context f)

/-- Models `last_error()`: read the errno indicator, reset it to zero, and convert the
read value to a generic-category code.  Returns (code, new errno). -/
def last_error (errno : Int) : ErrorCode × Int :=
  (⟨.generic, errno⟩, 0)

/-- Models `with_errno(func, error_context)`: reset errno to zero, run the operation
(modelled as a state function on errno), and on a nonzero errno discard the
value and fail via `last_error`; the pair's second component is the errno value
after the call returns.  The initial errno is overwritten unread. -/
def with_errno {α : Type} (func : Int → α × Int) (error_context : String)
    (_errno0 : Int) : Result α × Int :=
  let r := func 0
  if r.2 ≠ 0 then
    let le := last_error r.2
    (.error ⟨error_context, le.1⟩, le.2)
  else
    (.ok r.1, r.2)

/-- Loop body of `first_of`: return the first success, otherwise accumulate the
failures' rendered messages separated by `"; "` and fail with the registry's
`unknown_error` code once the list is exhausted. -/
def firstOfAux {α : Type} (acc : String) : List (Result α) → Result α
  | [] => .error ⟨acc, make_error_code .unknown_error⟩
  | r :: rs =>
    match r with
    | .ok v => .ok v
    | .error e =>
        firstOfAux (if acc = "" then e.message else acc ++ "; " ++ e.message) rs

/-- Models `first_of(results)`: an empty list fails with the generic invalid-argument
code and context "No alternatives provided"; otherwise scan the list. -/
def first_of {α : Type} (results : List (Result α)) : Result α :=
  if results.length = 0 then
    .error ⟨"No alternatives provided", ⟨.generic, 22⟩⟩
  else
    firstOfAux "" results

end error_utils

namespace error_utils

theorem append_ne_empty_right (a b : String) (h : b ≠ "") : a ++ b ≠ "" := by
  intro hc
  apply h
  apply String.ext
  have hd := congrArg String.data hc
  rw [String.data_append] at hd
  exact (List.append_eq_nil.mp hd).2

theorem append_ne_empty_left (a b : String) (h : a ≠ "") : a ++ b ≠ "" := by
  intro hc
  apply h
  apply String.ext
  have hd := congrArg String.data hc
  rw [String.data_append] at hd
  exact (List.append_eq_nil.mp hd).1

theorem endsWithMarker_append (s : String) : endsWithMarker (s ++ "\x02") = true := by
  simp only [endsWithMarker, String.data_append, decide_eq_true_eq]
  exact List.getLast?_concat _

theorem removeMarker_append (s : String) : removeMarker (s ++ "\x02") = s := by
  simp only [removeMarker, String.data_append]
  rw [List.dropLast_concat]

theorem ite_ne_empty {c : Prop} [Decidable c] {a b : String} (ha : a ≠ "")
    (hb : b ≠ "") : (if c then a else b) ≠ "" := by
  split <;> assumption

theorem codeMessage_ne_empty (k : ErrorCode) : codeMessage k ≠ "" := by
  rcases k with ⟨d, v⟩
  cases d <;>
    · simp only [codeMessage, genericMessage, extraMessage, conditionMessage, futureMessage]
      repeat apply ite_ne_empty (by decide)
      decide

theorem message_ne_empty (e : Error) : e.message ≠ "" := by
  unfold Error.message
  split
  · exact codeMessage_ne_empty e.code
  · exact append_ne_empty_right _ _ (codeMessage_ne_empty e.code)

/-- Messages of a failure list joined with `"; "` separators, in order. -/
def joinSemicolon : List String → String
  | [] => ""
  | [m] => m
  | m :: r :: rs => m ++ "; " ++ joinSemicolon (r :: rs)

/-- Tail form of the join: every element preceded by its separator. -/
def joinTail : List String → String
  | [] => ""
  | m :: ms => "; " ++ m ++ joinTail ms

theorem join_cons (m : String) (ms : List String) :
    m ++ joinTail ms = joinSemicolon (m :: ms) := by
  induction ms generalizing m with
  | nil => simp [joinTail, joinSemicolon, String.append_empty]
  | cons r rs ih =>
    rw [joinTail, joinSemicolon, ← ih r]
    simp [String.append_assoc]

theorem foldl_join_acc (ms : List String) (acc : String) (h : acc ≠ "") :
    List.foldl (fun a m => if a = "" then m else a ++ "; " ++ m) acc ms
      = acc ++ joinTail ms := by
  induction ms generalizing acc with
  | nil => simp [joinTail, String.append_empty]
  | cons m ms ih =>
    rw [List.foldl, if_neg h, joinTail,
      ih _ (append_ne_empty_left _ _ (append_ne_empty_right _ _ (by decide)))]
    simp [String.append_assoc]

theorem foldl_join (m : String) (ms : List String) (h : m ≠ "") :
    List.foldl (fun a s => if a = "" then s else a ++ "; " ++ s) "" (m :: ms)
      = joinSemicolon (m :: ms) := by
  rw [List.foldl, if_pos rfl, foldl_join_acc ms m h, join_cons]

theorem joinSemicolon_cons_ne_empty (m : String) (ms : List String) (h : m ≠ "") :
    joinSemicolon (m :: ms) ≠ "" := by
  rw [← join_cons]
  exact append_ne_empty_left _ _ h

theorem firstOfAux_map_error {α : Type} (es : List Error) (acc : String) :
    firstOfAux (α := α) acc (es.map .error)
      = .error ⟨List.foldl (fun a e => if a = "" then e.message else a ++ "; " ++ e.message)
                  acc es,
                make_error_code .unknown_error⟩ := by
  induction es generalizing acc with
  | nil => rfl
  | cons e es ih =>
    simp only [List.map, firstOfAux, List.foldl]
    exact ih _

theorem firstOfAux_first_ok {α : Type} (pre : List Error) (v : α)
    (rest : List (Result α)) (acc : String) :
    firstOfAux acc (pre.map .error ++ .ok v :: rest) = .ok v := by
  induction pre generalizing acc with
  | nil => rfl
  | cons e es ih =>
    simp only [List.map, List.cons_append, firstOfAux]
    exact ih _

theorem regexError_context_of_marker (c : RegexErrorType) (s : String)
    (h : endsWithMarker s = true) : (regexError c s).context = removeMarker s := by
  cases c <;> simp [regexError, regexCreate, h]

end error_utils

namespace error_utils

/-- The default message each catch branch hands to `create_error`: the fault's
`e.what()` text, the empty string for the `system_error` branch, and the fixed
text "Unknown exception" for the `catch (...)` branch.  For the regex branch
the marker round-trip reduces the stored context to the same shape with the
fault's own text. -/
def faultText : Fault → String
  | .invalid_argument w => w
  | .domain_error w => w
  | .length_error w => w
  | .out_of_range w => w
  | .future_error _ w => w
  | .logic_error w => w
  | .range_error w => w
  | .overflow_error w => w
  | .underflow_error w => w
  | .regex_error _ w => w
  | .system_error _ _ => ""
  | .nonexistent_local_time w => w
  | .ambiguous_local_time w => w
  | .format_error w => w
  | .runtime_error w => w
  | .bad_alloc w => w
  | .bad_typeid w => w
  | .bad_cast w => w
  | .bad_optional_access w => w
  | .bad_expected_access w => w
  | .bad_variant_access w => w
  | .bad_weak_ptr w => w
  | .bad_function_call w => w
  | .bad_exception w => w
  | .std_exception w => w
  | .non_standard => "Unknown exception"

/-- C3: `try_catch` is total: for every operation outcome and context it
returns a `Result` — the operation's value on normal completion, and a
failure classifying the fault through the catch-chain otherwise; no outcome
escapes unhandled. -/
theorem c3_try_catch_total : ∀ (α : Type) (ctx : String) (o : FuncOutcome α),
    (∃ v, o = .normal v ∧ try_catch o ctx = .ok v)
    ∨ (∃ f, o = .raised f ∧ try_catch o ctx = .error (dispatchFault ctx f)) := by
  intro α ctx o
  cases o with
  | normal v => exact Or.inl ⟨v, rfl, rfl⟩
  | raised f => exact Or.inr ⟨f, rfl, rfl⟩

/-- C5: `Error` equality is decided by the stored (domain, value) code only
(contexts are ignored), the ordering is determined by the same key (it does
not depend on the contexts), and the hash depends only on the code, so equal
`Error`s always hash alike. -/
theorem c5_eq_ord_hash : ∀ (k1 k2 : ErrorCode) (c1 c2 c3 c4 : String),
    Error.beq ⟨c1, k1⟩ ⟨c2, k2⟩ = decide (k1 = k2)
    ∧ Error.cmp ⟨c1, k1⟩ ⟨c2, k2⟩ = Error.cmp ⟨c3, k1⟩ ⟨c4, k2⟩
    ∧ errorHash ⟨c1, k1⟩ = errorHash ⟨c2, k1⟩ := by
  intro k1 k2 c1 c2 c3 c4
  exact ⟨rfl, rfl, rfl⟩

/-- C6: an invalid-argument fault with text "bad input" under context "parse"
produces a failure whose code satisfies `is(invalid_argument)` and whose
rendered message is "parse: bad input: Invalid argument exception". -/
theorem c6_invalid_argument_scenario :
    try_catch (FuncOutcome.raised (Fault.invalid_argument "bad input") : FuncOutcome Nat)
        "parse"
      = .error ⟨"parse: bad input", make_error_code .invalid_argument⟩
    ∧ (Error.mk "parse: bad input" (make_error_code .invalid_argument)).isExtra
        .invalid_argument = true
    ∧ errMessage (try_catch (FuncOutcome.raised (Fault.invalid_argument "bad input") :
        FuncOutcome Nat) "parse")
      = "parse: bad input: Invalid argument exception" := by
  refine ⟨?_, by decide, ?_⟩ <;> rfl

/-- C1 counterexample: for a non-enumerated fault under context "ctx" the
failure's code is the registry's `unknown_exception`, but the rendered message
is "ctx: Unknown exception: Unknown exception caught", not the caller context
alone. -/
theorem c1_counterexample :
    errCode (try_catch (FuncOutcome.raised Fault.non_standard : FuncOutcome Nat) "ctx")
      = make_error_code .unknown_exception
    ∧ errMessage (try_catch (FuncOutcome.raised Fault.non_standard : FuncOutcome Nat) "ctx")
      = "ctx: Unknown exception: Unknown exception caught"
    ∧ errMessage (try_catch (FuncOutcome.raised Fault.non_standard : FuncOutcome Nat) "ctx")
      ≠ "ctx" := by
  refine ⟨rfl, rfl, by decide⟩

/-- C1 amended: a non-enumerated fault yields a failure with the registry's
`unknown_exception` code whose stored context is the caller context followed
by ": Unknown exception" (or "Unknown exception" alone when the context is
empty); the rendered message appends the registry description
"Unknown exception caught" after a further ": ". -/
theorem c1_amended : ∀ (ctx : String),
    try_catch (FuncOutcome.raised Fault.non_standard : FuncOutcome Nat) ctx
      = .error ⟨if ctx = "" then "Unknown exception" else ctx ++ ": " ++ "Unknown exception",
                make_error_code .unknown_exception⟩
    ∧ errMessage (try_catch (FuncOutcome.raised Fault.non_standard : FuncOutcome Nat) ctx)
      = (if ctx = "" then "Unknown exception" else ctx ++ ": " ++ "Unknown exception")
        ++ ": " ++ "Unknown exception caught" := by
  intro ctx
  by_cases h : ctx = ""
  · subst h
    exact ⟨rfl, rfl⟩
  · refine ⟨by simp [try_catch, dispatchFault, createError, h], ?_⟩
    simp only [errMessage, try_catch, dispatchFault, createError, Error.message, if_neg h,
      if_neg (append_ne_empty_right (ctx ++ ": ") "Unknown exception" (by decide))]
    rfl

/-- C7 counterexample: the `system_error` branch passes an empty fault text,
so with the non-empty caller context "ctx" the stored context is "ctx: " with
a trailing separator — not "ctx", the non-empty operand alone. -/
theorem c7_counterexample :
    errContext (try_catch (FuncOutcome.raised
        (Fault.system_error ⟨.generic, 13⟩ "Permission denied") : FuncOutcome Nat) "ctx")
      = "ctx: "
    ∧ ("ctx: " : String) ≠ "ctx" := by
  exact ⟨rfl, by decide⟩

/-- C7 amended: in every branch of the translator the stored context is
`caller_context ": " fault_text` when the caller context is non-empty and the
fault text alone otherwise (for the `system_error` branch the fault text is
empty, so a non-empty caller context keeps a trailing ": "); the
`system_error` branch carries the fault's own embedded code, and with an empty
caller context its message derives solely from that code. -/
theorem c7_amended : ∀ (ctx : String) (f : Fault),
    errContext (try_catch (FuncOutcome.raised f : FuncOutcome Nat) ctx)
      = (if ctx = "" then faultText f else ctx ++ ": " ++ faultText f)
    ∧ ∀ (k : ErrorCode) (w : String),
        errCode (try_catch (FuncOutcome.raised (Fault.system_error k w) : FuncOutcome Nat)
          ctx) = k
        ∧ errMessage (try_catch (FuncOutcome.raised (Fault.system_error k w) :
            FuncOutcome Nat) "") = codeMessage k := by
  intro ctx f
  constructor
  · cases f with
    | regex_error c w =>
      show (regexError c _).context = _
      by_cases h : ctx = ""
      · rw [if_pos h, h, if_pos rfl,
          regexError_context_of_marker c _ (endsWithMarker_append w), removeMarker_append]
        rfl
      · rw [if_neg h, if_neg h, ← String.append_assoc,
          regexError_context_of_marker c _ (endsWithMarker_append (ctx ++ ": " ++ w)),
          removeMarker_append]
        rfl
    | _ => rfl
  · intro k w
    exact ⟨rfl, rfl⟩

end error_utils

namespace error_utils

theorem condition_compare_aux (d c : ExtraErrorCondition) (v : Int) :
    (decide ((⟨.extraCondition, d.toInt⟩ : ErrorCode) = ⟨.extraCondition, c.toInt⟩) ||
      (decide (ErrorDomain.extraCondition = ErrorDomain.extra) && decide (v = c.toInt)))
    = decide (d = c) := by
  cases d <;> cases c <;> simp [ExtraErrorCondition.toInt]

/-- C4: for every stored registry-domain code value, `is` against a Condition
candidate holds iff the code's default condition under the static table equals
the candidate (never by a direct domain/value match), and the table maps
1..3 to logic, 4..8 to runtime, 9..11 to resource, 12..16 to access, and
every value outside 1..16 to other. -/
theorem c4_is_condition : ∀ (ctx : String) (v : Int) (c : ExtraErrorCondition),
    (Error.mk ctx ⟨.extra, v⟩).isCond c = decide (extraDefaultCondition v = c)
    ∧ ((extraDefaultCondition ExtraError.invalid_argument.toInt = .logic_error
        ∧ extraDefaultCondition ExtraError.length_error.toInt = .logic_error
        ∧ extraDefaultCondition ExtraError.logic_error.toInt = .logic_error
        ∧ extraDefaultCondition ExtraError.value_too_small.toInt = .runtime_error
        ∧ extraDefaultCondition ExtraError.nonexistent_local_time.toInt = .runtime_error
        ∧ extraDefaultCondition ExtraError.ambiguous_local_time.toInt = .runtime_error
        ∧ extraDefaultCondition ExtraError.format_error.toInt = .runtime_error
        ∧ extraDefaultCondition ExtraError.runtime_error.toInt = .runtime_error
        ∧ extraDefaultCondition ExtraError.bad_alloc.toInt = .resource_error
        ∧ extraDefaultCondition ExtraError.bad_typeid.toInt = .resource_error
        ∧ extraDefaultCondition ExtraError.bad_cast.toInt = .resource_error
        ∧ extraDefaultCondition ExtraError.bad_optional_access.toInt = .access_error
        ∧ extraDefaultCondition ExtraError.bad_expected_access.toInt = .access_error
        ∧ extraDefaultCondition ExtraError.bad_variant_access.toInt = .access_error
        ∧ extraDefaultCondition ExtraError.bad_weak_ptr.toInt = .access_error
        ∧ extraDefaultCondition ExtraError.bad_function_call.toInt = .access_error)
      ∧ ((1 ≤ v ∧ v ≤ 16) ∨ extraDefaultCondition v = .other_error)) := by
  intro ctx v c
  refine ⟨?_, by decide, ?_⟩
  · simp only [Error.isCond, codeEqCond, defaultErrorCondition, make_error_condition]
    exact condition_compare_aux (extraDefaultCondition v) c v
  · by_cases h : 1 ≤ v ∧ v ≤ 16
    · exact Or.inl h
    · right
      unfold extraDefaultCondition
      split_ifs with h1 h2 h3 h4 <;> first | rfl | exact (h (by omega)).elim

/-- C2 counterexample: two failures combine into an error whose rendered
message carries the registry's "Unknown error" description appended after the
joined messages — not the joined messages alone — and whose code lives in the
registry (`ExtraError`) domain, not the built-in platform domain. -/
theorem c2_counterexample :
    errMessage (first_of ([.error ⟨"e1", make_error_code .invalid_argument⟩,
        .error ⟨"e2", make_error_code .length_error⟩] : List (Result Nat)))
      = "e1: Invalid argument exception; e2: Length error exception: Unknown error"
    ∧ errMessage (first_of ([.error ⟨"e1", make_error_code .invalid_argument⟩,
        .error ⟨"e2", make_error_code .length_error⟩] : List (Result Nat)))
      ≠ "e1: Invalid argument exception; e2: Length error exception"
    ∧ (errCode (first_of ([.error ⟨"e1", make_error_code .invalid_argument⟩,
        .error ⟨"e2", make_error_code .length_error⟩] : List (Result Nat)))).domain
      ≠ ErrorDomain.generic := by
  refine ⟨rfl, by decide, by decide⟩

/-- C2 amended: for every non-empty all-failure list, `first_of` fails with
the registry's `unknown_error` code; the stored context is the failures'
rendered messages joined with "; " in input order, and the rendered message is
that joined string followed by ": Unknown error" (the registry description). -/
theorem c2_amended : ∀ (es : List Error), es ≠ [] →
    first_of (es.map .error : List (Result Nat))
      = .error ⟨joinSemicolon (es.map Error.message), make_error_code .unknown_error⟩
    ∧ errMessage (first_of (es.map .error : List (Result Nat)))
      = joinSemicolon (es.map Error.message) ++ ": " ++ "Unknown error" := by
  intro es hne
  obtain ⟨e, es', rfl⟩ := List.exists_cons_of_ne_nil hne
  have hlen : ((e :: es').map (.error : Error → Result Nat)).length ≠ 0 := by simp
  have hmain : first_of ((e :: es').map .error : List (Result Nat))
      = .error ⟨joinSemicolon ((e :: es').map Error.message),
                make_error_code .unknown_error⟩ := by
    unfold first_of
    rw [if_neg hlen, firstOfAux_map_error]
    have hfold : List.foldl
        (fun a err => if a = "" then err.message else a ++ "; " ++ err.message)
        "" (e :: es')
        = joinSemicolon ((e :: es').map Error.message) := by
      have hmap := List.foldl_map (Error.message)
        (fun a s => if a = "" then s else a ++ "; " ++ s)
        (e :: es') ""
      rw [← hmap, List.map, foldl_join _ _ (message_ne_empty e)]
    rw [hfold]
  refine ⟨hmain, ?_⟩
  rw [hmain]
  show (Error.mk _ _).message = _
  unfold Error.message
  rw [if_neg]
  · rfl
  · rw [List.map]
    exact joinSemicolon_cons_ne_empty _ _ (message_ne_empty e)

/-- C2 witness: instantiation of the amended combination law at a concrete
one-failure list. -/
theorem c2_witness :
    ([⟨"e1", make_error_code .invalid_argument⟩] : List Error) ≠ []
    ∧ (first_of (([⟨"e1", make_error_code .invalid_argument⟩] : List Error).map .error :
          List (Result Nat))
        = .error ⟨joinSemicolon
            (([⟨"e1", make_error_code .invalid_argument⟩] : List Error).map Error.message),
            make_error_code .unknown_error⟩
      ∧ errMessage (first_of (([⟨"e1", make_error_code .invalid_argument⟩] :
            List Error).map .error : List (Result Nat)))
        = joinSemicolon
            (([⟨"e1", make_error_code .invalid_argument⟩] : List Error).map Error.message)
          ++ ": " ++ "Unknown error") :=
  ⟨by decide, c2_amended _ (by decide)⟩

/-- C8: `first_of` returns the first success in input order, whatever its
position among failures, and on an empty list fails with the generic
invalid-argument code and the exact rendered message
"No alternatives provided: Invalid argument". -/
theorem c8_first_of :
    (∀ (pre : List Error) (v : Nat) (rest : List (Result Nat)),
      first_of (pre.map .error ++ .ok v :: rest) = .ok v)
    ∧ first_of ([] : List (Result Nat))
      = .error ⟨"No alternatives provided", ⟨.generic, 22⟩⟩
    ∧ errMessage (first_of ([] : List (Result Nat)))
      = "No alternatives provided: Invalid argument" := by
  refine ⟨?_, rfl, rfl⟩
  intro pre v rest
  have hlen : (pre.map (.error : Error → Result Nat) ++ .ok v :: rest).length ≠ 0 := by
    simp
  unfold first_of
  rw [if_neg hlen]
  exact firstOfAux_first_ok pre v rest ""

/-- C9: `with_errno` invokes the operation with the errno indicator cleared to
zero; a nonzero errno after the call discards the value and fails with that
errno value as a generic-domain code, and a zero errno returns the value — and in
both cases the ambient errno is zero when `with_errno` returns, whatever it
was before. -/
theorem c9_with_errno : ∀ (f : Int → Nat × Int) (ctx : String) (e0 : Int),
    (with_errno f ctx e0).2 = 0
    ∧ (with_errno f ctx e0).1
      = (if (f 0).2 = 0 then .ok (f 0).1 else .error ⟨ctx, ⟨.generic, (f 0).2⟩⟩) := by
  intro f ctx e0
  unfold with_errno last_error
  by_cases h : (f 0).2 = 0 <;> simp [h]

/-- The (code, description) each enumerated regex fault identifier maps to:
invalid-argument for the nine syntax faults and the bad-repeat placement,
not-enough-memory for the two memory faults, result-out-of-range for the
complexity fault, and the registry's `unknown_error` otherwise. -/
def regexFaultCode : RegexErrorType → ErrorCode
  | .error_space => ⟨.generic, 12⟩
  | .error_stack => ⟨.generic, 12⟩
  | .error_complexity => ⟨.generic, 34⟩
  | .unrecognized _ => make_error_code .unknown_error
  | _ => ⟨.generic, 22⟩

/-- The descriptive message of each regex fault identifier. -/
def regexFaultMessage : RegexErrorType → String
  | .error_collate => "Regex error: invalid collating element name"
  | .error_ctype => "Regex error: invalid character class name"
  | .error_escape => "Regex error: invalid escaped character or a trailing escape"
  | .error_backref => "Regex error: invalid back reference"
  | .error_brack => "Regex error: mismatched square brackets (\x27[\x27 and \x27]\x27)"
  | .error_paren => "Regex error: mismatched parentheses (\x27(\x27 and \x27)\x27)"
  | .error_brace => "Regex error: mismatched curly braces (\x27\x7b\x27 and \x27\x7d\x27)"
  | .error_badbrace => "Regex error: invalid range in a \x7b\x7d expression"
  | .error_range => "Regex error: invalid character range"
  | .error_space =>
      "Regex error: insufficient memory to convert the expression into a finite state machine"
  | .error_badrepeat =>
      "Regex error: \x27*\x27, \x27?\x27, \x27+\x27 or \x27\x7b\x27 was not preceded by a valid regular expression"
  | .error_complexity =>
      "Regex error: the complexity of an attempted match exceeded a predefined level"
  | .error_stack => "Regex error: insufficient memory to perform a match"
  | .unrecognized _ => "Regex error: unknown error"

/-- C10: for every regex fault identifier and context, the pattern-fault
`make_error` overload fails with the identifier's mapped code; a context
ending in the marker byte 0x02 is stored with exactly that final byte removed
and the descriptive message discarded, while any other context gets the
description appended after ": " (or the description alone when the context is
empty). -/
theorem c10_make_error_regex : ∀ (c : RegexErrorType) (ctx : String),
    make_error_regex (α := Nat) c ctx
      = .error ⟨if endsWithMarker ctx then removeMarker ctx
                else if ctx = "" then regexFaultMessage c
                else ctx ++ ": " ++ regexFaultMessage c,
                regexFaultCode c⟩ := by
  intro c ctx
  cases c <;>
    · simp only [make_error_regex, regexError, regexCreate, regexFaultCode,
        regexFaultMessage]
      split_ifs <;> rfl

end error_utils
